import Mathlib

/-!
A shallow embedding of the `pmdapi` client library (`src/__init__.py`).

The library is a synchronous HTTP client: every operation validates its
arguments (Python `assert`), issues one or more HTTP requests, and either
returns a value or raises an exception.  We embed each operation as a pure
Lean function that takes an *oracle* (a function from requests to responses,
standing for the remote server) and returns the operation's result together
with the ordered trace of observable effects (file reads and HTTP requests)
it performed.

Python exceptions are modelled by `PyError`:
 * `assertionError` — a failed `assert` (the spec's `InvalidArgument`);
 * `requestException` — `RequestException(str(response.content, "utf-8"))`
   (the spec's `ApiError`, carrying the raw response body);
 * `keyError` — a failed dictionary lookup;
 * `unicodeDecodeError` — text-mode file read of bytes that do not decode.
-/

/-- A Python value as it appears in a `headers=` / `data=` / `json=` /
`params=` dictionary of the source: a string, a boolean, or `None`. -/
inductive PyVal where
  | str : String → PyVal
  | bool : Bool → PyVal
  | pyNone : PyVal
deriving Repr, DecidableEq

/-- An HTTP request exactly as the source code hands it to `requests`:
method, URL, and the `headers`/`params`/`data`/`json` dictionaries, plus the
raw body used by `append_data` and the `allow_redirects` flag used by
`create_draftset`. -/
structure HttpRequest where
  method : String
  url : String
  headers : List (String × PyVal) := []
  params : List (String × PyVal) := []
  formData : List (String × PyVal) := []
  jsonBody : List (String × PyVal) := []
  rawBody : Option (List Nat) := Option.none
  allowRedirects : Bool := true
deriving Repr, DecidableEq

/-- A server record for one draftset, with the kebab-case fields of the wire
format (`id`, `type`, `created-at`, `updated-at`, `changes`, and the optional
fields read with `dict.get(..., None)` in the source). -/
structure DraftsetRecord where
  id : String
  type : String
  created_at : String
  updated_at : String
  changes : List (String × String)
  display_name : Option String := Option.none
  current_owner : Option String := Option.none
  submitted_by : Option String := Option.none
  claim_role : Option String := Option.none
  claim_user : Option String := Option.none
  description : Option String := Option.none
deriving Repr, DecidableEq

/-- An HTTP response as the client observes it: status code, the `Location`
header (if any), the raw body, and — when the body is draftset JSON — its
decoded form (`jsonRecord` for one record, `jsonRecords` for a list). -/
structure HttpResponse where
  statusCode : Nat
  location : Option String := Option.none
  body : String := ""
  jsonRecord : Option DraftsetRecord := Option.none
  jsonRecords : Option (List DraftsetRecord) := Option.none
deriving Repr, DecidableEq

/-- The exceptions the embedded code can raise. -/
inductive PyError where
  | assertionError : PyError
  | requestException : String → PyError
  | keyError : String → PyError
  | unicodeDecodeError : PyError
deriving Repr, DecidableEq

/-- An observable effect of an operation: reading a local file, or issuing
an HTTP request. -/
inductive Effect where
  | fileRead : String → Effect
  | request : HttpRequest → Effect
deriving Repr, DecidableEq

/-- The remote server: a response for every request. -/
def Oracle : Type := HttpRequest → HttpResponse

/-- The `PublishMyData` dataclass: credentials, `base_url` (a dataclass field
with default `DEFAULT_BASE_URL`), and the `access_token` stored by
`get_token`. -/
structure Session where
  client_id : String
  client_secret : String
  base_url : String
  access_token : String
deriving Repr, DecidableEq

/-- Python truthiness of an optional string argument: `None` and the empty
string are falsy, every other string is truthy (`bool(None) = bool("") =
False`). -/
def truthy : Option String → Bool
  | Option.none => false
  | Option.some s => s ≠ ""

/-- The `Draftset` dataclass.  `_requester` is the back-reference to the
owning `PublishMyData` session. -/
structure Draftset where
  requester : Session
  id : String
  type : String
  created_at : String
  updated_at : String
  changes : List (String × String)
  display_name : Option String := Option.none
  current_owner : Option String := Option.none
  submitted_by : Option String := Option.none
  claim_role : Option String := Option.none
  claim_user : Option String := Option.none
  description : Option String := Option.none
deriving Repr, DecidableEq

/-- Constructing a `Draftset` from a server record, as done at every call
site (`get_draftsets`, `get_draftset`): the dataclass `__post_init__` runs
`assert self.type in ("Endpoint", "Draftset")`, so construction fails with
an `AssertionError` for any other `type`. -/
def mkDraftset (s : Session) (r : DraftsetRecord) : Except PyError Draftset :=
  if r.type = "Endpoint" ∨ r.type = "Draftset" then
    Except.ok
      { requester := s, id := r.id, type := r.type,
        created_at := r.created_at, updated_at := r.updated_at,
        changes := r.changes, display_name := r.display_name,
        current_owner := r.current_owner, submitted_by := r.submitted_by,
        claim_role := r.claim_role, claim_user := r.claim_user,
        description := r.description }
  else
    Except.error PyError.assertionError

/-- The headers `{"Accept": "application/json", "Authorization": f"Bearer
{token}"}` used by every JSON operation. -/
def authHeaders (token : String) : List (String × PyVal) :=
  [("Accept", PyVal.str "application/json"),
   ("Authorization", PyVal.str ("Bearer " ++ token))]

/-- `str(b)` for a Python boolean, as `requests` form-encodes it. -/
def pyBool (b : Bool) : PyVal := PyVal.bool b

/-- Python `str.split(sep)` for a one-character separator, on the string's
characters: always returns at least one (possibly empty) piece, one more
piece per separator occurrence. -/
def splitOnChar (c : Char) : List Char → List (List Char)
  | [] => [[]]
  | x :: xs =>
    let r := splitOnChar c xs
    if x = c then [] :: r
    else
      match r with
      | [] => [[x]]
      | y :: ys => (x :: y) :: ys

/-- `x.rsplit("/")[-1]`: the trailing segment of a `/`-separated string.
`str.rsplit` with no maxsplit equals `str.split`, whose result is always
non-empty, and `[-1]` takes its last element. -/
def lastPathSegment (s : String) : String :=
  String.mk ((splitOnChar '/' s.data).getLastD [])

/-- The hardcoded URL string of `get_draftsets` and `create_draftset`. -/
def draftsetsUrl : String :=
  "https://cogs-staging-drafter.publishmydata.com/v1/draftsets"

/-- The hardcoded f-string URL of `get_draftset` (and of the lifecycle
endpoints, which append a suffix to it). -/
def draftsetUrl (id : String) : String :=
  "https://cogs-staging-drafter.publishmydata.com/v1/draftset/" ++ id

/-- The request built by `get_draftsets`: note that the source passes the
filters via `data=` (a form-encoded request body on a GET), not `params=`,
and spells the first key `"incude"`. -/
def getDraftsetsRequest (s : Session) (include_ : String)
    (union_with_live : Bool) : HttpRequest :=
  { method := "GET", url := draftsetsUrl,
    headers := authHeaders s.access_token,
    formData := [("incude", PyVal.str include_),
                 ("union-with-live", pyBool union_with_live)] }

/-- `PublishMyData.get_draftsets`: assert the `include` filter is one of
`("owned", "claimable", "all")` (and `union_with_live` a bool, which the
embedding's types guarantee), then GET and, on HTTP 200, decode each record
into a `Draftset`; on any other status raise `RequestException` with the raw
body. -/
def get_draftsets (s : Session) (include_ : String) (union_with_live : Bool)
    (oracle : Oracle) : Except PyError (List Draftset) × List Effect :=
  if include_ = "owned" ∨ include_ = "claimable" ∨ include_ = "all" then
    let req := getDraftsetsRequest s include_ union_with_live
    let resp := oracle req
    if resp.statusCode = 200 then
      match resp.jsonRecords with
      | Option.none => (Except.error (PyError.keyError "json"), [Effect.request req])
      | Option.some rs => (rs.mapM (mkDraftset s), [Effect.request req])
    else
      (Except.error (PyError.requestException resp.body), [Effect.request req])
  else
    (Except.error PyError.assertionError, [])

/-- The request built by `get_draftset` (again `data=`, not `params=`). -/
def getDraftsetRequest (s : Session) (id : String)
    (union_with_live : Bool) : HttpRequest :=
  { method := "GET", url := draftsetUrl id,
    headers := authHeaders s.access_token,
    formData := [("union-with-live", pyBool union_with_live)] }

/-- `PublishMyData.get_draftset`: GET the draftset URL; on HTTP 200 decode
the record into a `Draftset`, otherwise raise `RequestException` with the
raw body. -/
def get_draftset (s : Session) (id : String) (union_with_live : Bool)
    (oracle : Oracle) : Except PyError Draftset × List Effect :=
  let req := getDraftsetRequest s id union_with_live
  let resp := oracle req
  if resp.statusCode = 200 then
    match resp.jsonRecord with
    | Option.none => (Except.error (PyError.keyError "json"), [Effect.request req])
    | Option.some r => (mkDraftset s r, [Effect.request req])
  else
    (Except.error (PyError.requestException resp.body), [Effect.request req])

/-- `Option String` to `PyVal` the way the source passes optional arguments
into a dictionary (`None` stays `None`). -/
def optVal : Option String → PyVal
  | Option.none => PyVal.pyNone
  | Option.some s => PyVal.str s

/-- The request built by `create_draftset`, with `allow_redirects=False`. -/
def createDraftsetRequest (s : Session) (display_name description : Option String)
    (union_with_live : Bool) : HttpRequest :=
  { method := "POST", url := draftsetsUrl,
    headers := authHeaders s.access_token,
    formData := [("display-name", optVal display_name),
                 ("description", optVal description),
                 ("union-with-live", pyBool union_with_live)],
    allowRedirects := false }

/-- `PublishMyData.create_draftset`: POST with redirects disabled; on HTTP
303 take the `location` header, extract its trailing path segment as the new
id (`rsplit("/")[-1]`), and delegate to `get_draftset`; on any other status
raise `RequestException` with the raw body.  A 303 without a `location`
header is a Python `KeyError`. -/
def create_draftset (s : Session) (display_name description : Option String)
    (union_with_live : Bool) (oracle : Oracle) :
    Except PyError Draftset × List Effect :=
  let req := createDraftsetRequest s display_name description union_with_live
  let resp := oracle req
  if resp.statusCode = 303 then
    match resp.location with
    | Option.none => (Except.error (PyError.keyError "location"), [Effect.request req])
    | Option.some loc =>
      let follow := get_draftset s (lastPathSegment loc) false oracle
      (follow.1, Effect.request req :: follow.2)
  else
    (Except.error (PyError.requestException resp.body), [Effect.request req])

/-- `Draftset.delete`: DELETE the draftset URL with `metadata` as form data;
return `True` on HTTP 202, otherwise raise `RequestException` with the raw
body. -/
def Draftset.delete (d : Draftset) (metadata : Option String)
    (oracle : Oracle) : Except PyError Bool × List Effect :=
  let req : HttpRequest :=
    { method := "DELETE", url := draftsetUrl d.id,
      headers := authHeaders d.requester.access_token,
      formData := [("metadata", optVal metadata)] }
  let resp := oracle req
  if resp.statusCode = 202 then
    (Except.ok true, [Effect.request req])
  else
    (Except.error (PyError.requestException resp.body), [Effect.request req])

/-- `Draftset.claim`: POST the claim endpoint; on HTTP 200 refetch the
draftset via `get_draftset`, otherwise raise `RequestException` with the raw
body. -/
def Draftset.claim (d : Draftset) (oracle : Oracle) :
    Except PyError Draftset × List Effect :=
  let req : HttpRequest :=
    { method := "POST", url := draftsetUrl d.id ++ "/claim",
      headers := authHeaders d.requester.access_token }
  let resp := oracle req
  if resp.statusCode = 200 then
    let follow := get_draftset d.requester d.id false oracle
    (follow.1, Effect.request req :: follow.2)
  else
    (Except.error (PyError.requestException resp.body), [Effect.request req])

/-- The client-side precondition of `Draftset.submit_to`, in source order:
`role in ("editor", "publisher", "manager", None)`, `isinstance(user, str)
or user is None` (guaranteed by the embedding's types), and `bool(role) ^
bool(user)` — an exclusive or of Python *truthiness*, under which the empty
string counts as absent. -/
def submitToValid (role user : Option String) : Bool :=
  (role = Option.some "editor" ∨ role = Option.some "publisher" ∨
   role = Option.some "manager" ∨ role = Option.none) ∧
  (truthy role ≠ truthy user)

/-- The request built by `submit_to` once its precondition holds. -/
def submitToRequest (d : Draftset) (role user : Option String) : HttpRequest :=
  { method := "POST", url := draftsetUrl d.id ++ "/submit-to",
    headers := authHeaders d.requester.access_token,
    jsonBody := [("role", optVal role), ("user", optVal user)] }

/-- `Draftset.submit_to`: check `submitToValid` (raising `AssertionError`
before any request when it fails), then POST the submit-to endpoint with
JSON body `{"role": role, "user": user}`; on HTTP 200 refetch via
`get_draftset`, otherwise raise `RequestException` with the raw body. -/
def Draftset.submit_to (d : Draftset) (role user : Option String)
    (oracle : Oracle) : Except PyError Draftset × List Effect :=
  if submitToValid role user then
    let req := submitToRequest d role user
    let resp := oracle req
    if resp.statusCode = 200 then
      let follow := get_draftset d.requester d.id false oracle
      (follow.1, Effect.request req :: follow.2)
    else
      (Except.error (PyError.requestException resp.body), [Effect.request req])
  else
    (Except.error PyError.assertionError, [])

/-- `Draftset.publish`: POST the publish endpoint with `metadata` as form
data; the response status is never inspected and nothing is returned. -/
def Draftset.publish (d : Draftset) (metadata : Option String) :
    Except PyError Unit × List Effect :=
  let req : HttpRequest :=
    { method := "POST", url := draftsetUrl d.id ++ "/publish",
      headers := authHeaders d.requester.access_token,
      formData := [("metadata", optVal metadata)] }
  (Except.ok (), [Effect.request req])

/-- The `extension_map` dictionary of `append_data`. -/
def extension_map : String → Option String
  | ".trig" => Option.some "application/trig"
  | ".ttl" => Option.some "text/turtle"
  | ".nq" => Option.some "application/n-quads"
  | ".trix" => Option.some "application/trix"
  | ".nt" => Option.some "application/n-triples"
  | ".rdf" => Option.some "application/rdf+xml"
  | _ => Option.none

/-- Whether a byte is a UTF-8 continuation byte (`0x80`–`0xBF`). -/
def utf8Cont (b : Nat) : Bool := 128 ≤ b ∧ b ≤ 191

/-- Whether a byte list is valid UTF-8 (lead-byte ranges with the usual
overlong and surrogate exclusions).  Models whether Python's text-mode
`open(filepath).read()` succeeds under the default UTF-8 locale encoding. -/
def validUtf8 : List Nat → Bool
  | [] => true
  | b :: rest =>
    if b ≤ 127 then validUtf8 rest
    else if 194 ≤ b ∧ b ≤ 223 then
      match rest with
      | c :: rest2 => utf8Cont c ∧ validUtf8 rest2
      | [] => false
    else if 224 ≤ b ∧ b ≤ 239 then
      match rest with
      | c1 :: c2 :: rest2 =>
        utf8Cont c1 ∧ utf8Cont c2 ∧
        (b ≠ 224 ∨ 160 ≤ c1) ∧ (b ≠ 237 ∨ c1 ≤ 159) ∧ validUtf8 rest2
      | _ => false
    else if 240 ≤ b ∧ b ≤ 244 then
      match rest with
      | c1 :: c2 :: c3 :: rest2 =>
        utf8Cont c1 ∧ utf8Cont c2 ∧ utf8Cont c3 ∧
        (b ≠ 240 ∨ 144 ≤ c1) ∧ (b ≠ 244 ∨ c1 ≤ 143) ∧ validUtf8 rest2
      | _ => false
    else false

/-- Universal-newline translation performed by Python's text-mode read:
`"\x5cr\x5cn"` and a lone `"\x5cr"` both become `"\x5cn"`.  Carriage return
and line feed are single-byte code points, so the translation acts
byte-wise on valid UTF-8. -/
def universalNewlines : List Nat → List Nat
  | [] => []
  | 13 :: 10 :: rest => 10 :: universalNewlines rest
  | 13 :: rest => 10 :: universalNewlines rest
  | b :: rest => b :: universalNewlines rest

/-- `open(filepath).read()` — a *text-mode* read (the source passes no mode
flag): the file's bytes must decode (else `UnicodeDecodeError`), and
universal-newline translation is applied.  The resulting Python `str` is
represented by its encoded bytes, which is what the request body carries. -/
def pythonTextRead (fileBytes : List Nat) : Except PyError (List Nat) :=
  if validUtf8 fileBytes then Except.ok (universalNewlines fileBytes)
  else Except.error PyError.unicodeDecodeError

/-- `if extension: content_type = extension_map[extension]` — the content
type `append_data` actually uses: a truthy `extension` overrides whatever
`content_type` was passed. -/
def resolvedContentType (extension content_type : Option String) :
    Option String :=
  if truthy extension then extension_map (extension.getD "") else content_type

/-- The validation sequence of `append_data`, in source order:
1. `assert(extension or content_type)` (truthiness);
2. `extension` is one of the six known extensions or `None`;
3. `content_type` is one of the six known MIME types or `None`;
then `if extension: content_type = extension_map[extension]` (the resolved
content type — no consistency check between the two arguments);
4. a resolved triple serialization requires a truthy `graph`;
5. `content_encoding` is `"gzip"`, `"x-gzip"` or `None`.
Returns the resolved `content_type` on success. -/
def appendDataValidate (extension content_type graph content_encoding :
    Option String) : Except PyError (Option String) :=
  if ¬ (truthy extension ∨ truthy content_type) then
    Except.error PyError.assertionError
  else if ¬ (extension = Option.some ".trig" ∨ extension = Option.some ".ttl" ∨
      extension = Option.some ".nq" ∨ extension = Option.some ".trix" ∨
      extension = Option.some ".nt" ∨ extension = Option.some ".rdf" ∨
      extension = Option.none) then
    Except.error PyError.assertionError
  else if ¬ (content_type = Option.some "application/trig" ∨
      content_type = Option.some "text/turtle" ∨
      content_type = Option.some "application/n-quads" ∨
      content_type = Option.some "application/trix" ∨
      content_type = Option.some "application/n-triples" ∨
      content_type = Option.some "application/rdf+xml" ∨
      content_type = Option.none) then
    Except.error PyError.assertionError
  else
    let resolved : Option String := resolvedContentType extension content_type
    if (resolved = Option.some "text/turtle" ∨
        resolved = Option.some "application/trix" ∨
        resolved = Option.some "application/n-triples" ∨
        resolved = Option.some "application/rdf+xml") ∧ ¬ truthy graph then
      Except.error PyError.assertionError
    else if ¬ (content_encoding = Option.some "gzip" ∨
        content_encoding = Option.some "x-gzip" ∨
        content_encoding = Option.none) then
      Except.error PyError.assertionError
    else
      Except.ok resolved

/-- The PUT request built by `append_data` after validation and file read:
`Content-Type` and `Content-Encoding` as headers, `graph` and `metadata` as
query parameters, and the bytes of the Python string read from the file as
the raw body. -/
def appendDataRequest (d : Draftset)
    (resolved content_encoding graph metadata : Option String)
    (rdf : List Nat) : HttpRequest :=
  { method := "PUT", url := draftsetUrl d.id ++ "/data",
    headers := [("Content-Type", optVal resolved),
                ("Content-Encoding", optVal content_encoding),
                ("Authorization",
                 PyVal.str ("Bearer " ++ d.requester.access_token))],
    params := [("graph", optVal graph), ("metadata", optVal metadata)],
    rawBody := Option.some rdf }

/-- `Draftset.append_data`: run the validation sequence (no effect on
failure), then read the file at `filepath` in text mode (`fileBytes` is the
file's content) and PUT the result to the data endpoint with `Content-Type`
and `Content-Encoding` headers and `graph`/`metadata` as query parameters.
The response status is never inspected. -/
def Draftset.append_data (d : Draftset) (filepath : String)
    (fileBytes : List Nat)
    (extension content_type graph metadata content_encoding : Option String) :
    Except PyError Unit × List Effect :=
  match appendDataValidate extension content_type graph content_encoding with
  | Except.error e => (Except.error e, [])
  | Except.ok resolved =>
    match pythonTextRead fileBytes with
    | Except.error e => (Except.error e, [Effect.fileRead filepath])
    | Except.ok rdf =>
      (Except.ok (),
       [Effect.fileRead filepath,
        Effect.request
          (appendDataRequest d resolved content_encoding graph metadata rdf)])

/-! Sample data used by the concrete witness theorems. -/

def sampleSession : Session :=
  { client_id := "cid", client_secret := "sec",
    base_url := "https://cogs-staging-drafter.publishmydata.com/v1/",
    access_token := "tok" }

def sampleRecord : DraftsetRecord :=
  { id := "abc-123", type := "Draftset", created_at := "t0",
    updated_at := "t1", changes := [] }

def sampleDraftset : Draftset :=
  { requester := sampleSession, id := "abc-123", type := "Draftset",
    created_at := "t0", updated_at := "t1", changes := [] }

def sampleOracle : Oracle :=
  fun _ => { statusCode := 200, jsonRecord := Option.some sampleRecord }

/-- `get_draftset` always issues exactly its one GET request, whatever the
response. -/
theorem get_draftset_trace (s : Session) (id : String) (uwl : Bool)
    (oracle : Oracle) :
    (get_draftset s id uwl oracle).2 =
      [Effect.request (getDraftsetRequest s id uwl)] := by
  unfold get_draftset
  dsimp only
  split
  · split <;> rfl
  · rfl

/-- C8: a `Draftset` can only be constructed from a record whose `type` is
`"Endpoint"` or `"Draftset"`; any other `type` fails construction with an
`AssertionError`, so every constructed `Draftset` satisfies the invariant. -/
theorem c8_draftset_type_invariant :
    (∀ (s : Session) (r : DraftsetRecord) (d : Draftset),
       mkDraftset s r = Except.ok d →
       d.type = "Endpoint" ∨ d.type = "Draftset") ∧
    (∀ (s : Session) (r : DraftsetRecord),
       r.type ≠ "Endpoint" → r.type ≠ "Draftset" →
       mkDraftset s r = Except.error PyError.assertionError) ∧
    (∀ (s : Session) (r : DraftsetRecord), r.type = "Draftset" →
       (mkDraftset s r).isOk = true) := by
  refine ⟨?_, ?_, ?_⟩
  · intro s r d h
    unfold mkDraftset at h
    split at h
    · rename_i hty
      cases h
      exact hty
    · exact Except.noConfusion h
  · intro s r h1 h2
    unfold mkDraftset
    rw [if_neg]
    rintro (h | h)
    · exact h1 h
    · exact h2 h
  · intro s r h
    unfold mkDraftset
    rw [if_pos (Or.inr h)]
    rfl

theorem c8_witness :
    (mkDraftset sampleSession sampleRecord).isOk = true ∧
    mkDraftset sampleSession { sampleRecord with type := "Unknown" } =
      Except.error PyError.assertionError :=
  ⟨c8_draftset_type_invariant.2.2 sampleSession sampleRecord rfl,
   c8_draftset_type_invariant.2.1 sampleSession
     { sampleRecord with type := "Unknown" } (by decide) (by decide)⟩

/-- C5: `get_draftsets` with an `include` filter outside
`{"owned", "claimable", "all"}` fails with an `AssertionError` and issues no
network request at all. -/
theorem c5_list_draftsets_invalid_include (s : Session) (include_ : String)
    (uwl : Bool) (oracle : Oracle)
    (h1 : include_ ≠ "owned") (h2 : include_ ≠ "claimable")
    (h3 : include_ ≠ "all") :
    get_draftsets s include_ uwl oracle =
      (Except.error PyError.assertionError, []) := by
  unfold get_draftsets
  rw [if_neg]
  rintro (h | h | h)
  · exact h1 h
  · exact h2 h
  · exact h3 h

theorem c5_witness :
    get_draftsets sampleSession "bogus" false sampleOracle =
      (Except.error PyError.assertionError, []) :=
  c5_list_draftsets_invalid_include sampleSession "bogus" false sampleOracle
    (by decide) (by decide) (by decide)

/-- C6 (divergence): a valid `get_draftsets` call issues exactly one GET to
the draftsets URL, but the filters do not travel as query parameters: the
request's `params` dictionary is empty and the values are passed as
form-encoded body `data`, with the include key spelled `"incude"`. -/
theorem c6_list_draftsets_filters_in_body (s : Session) (uwl : Bool)
    (oracle : Oracle) :
    (get_draftsets s "owned" uwl oracle).2 =
      [Effect.request (getDraftsetsRequest s "owned" uwl)] ∧
    (getDraftsetsRequest s "owned" uwl).method = "GET" ∧
    (getDraftsetsRequest s "owned" uwl).url = draftsetsUrl ∧
    (getDraftsetsRequest s "owned" uwl).params = [] ∧
    (getDraftsetsRequest s "owned" uwl).formData =
      [("incude", PyVal.str "owned"),
       ("union-with-live", PyVal.bool uwl)] := by
  refine ⟨?_, rfl, rfl, rfl, rfl⟩
  unfold get_draftsets
  rw [if_pos (Or.inl rfl)]
  dsimp only
  split
  · split <;> rfl
  · rfl

/-- C10: `submit_to(None, "")` fails the client-side precondition before any
network call, because Python truthiness treats the empty string as absent;
in general `submit_to(None, s)` passes the precondition iff `s` is
non-empty. -/
theorem c10_submit_to_empty_user :
    (∀ (d : Draftset) (oracle : Oracle),
       d.submit_to Option.none (Option.some "") oracle =
         (Except.error PyError.assertionError, [])) ∧
    (∀ s : String,
       submitToValid Option.none (Option.some s) = true ↔ s ≠ "") := by
  constructor
  · intro d oracle
    unfold Draftset.submit_to
    rw [if_neg (by decide)]
  · intro s
    simp [submitToValid, truthy]

theorem c10_witness :
    sampleDraftset.submit_to Option.none (Option.some "") sampleOracle =
      (Except.error PyError.assertionError, []) ∧
    submitToValid Option.none (Option.some "u") = true :=
  ⟨c10_submit_to_empty_user.1 sampleDraftset sampleOracle,
   (c10_submit_to_empty_user.2 "u").mpr (by decide)⟩

/-- C2: `submit_to` requires exactly one of `role`/`user` (in the truthy
sense): if both are set or neither is set it fails with an `AssertionError`
and no request is sent; if exactly one is set (with `role`, when present,
drawn from the three valid roles) the precondition passes and the submit
request is issued first. -/
theorem c2_submit_to_exclusive_or (d : Draftset) (role user : Option String)
    (oracle : Oracle) :
    (truthy role = truthy user →
       d.submit_to role user oracle =
         (Except.error PyError.assertionError, [])) ∧
    ((role = Option.none ∨ role = Option.some "editor" ∨
        role = Option.some "publisher" ∨ role = Option.some "manager") →
     truthy role ≠ truthy user →
     (d.submit_to role user oracle).2.head? =
       Option.some (Effect.request (submitToRequest d role user))) := by
  constructor
  · intro h
    unfold Draftset.submit_to
    rw [if_neg]
    simp [submitToValid, h]
  · intro h1 h2
    have hv : submitToValid role user = true := by
      simp only [submitToValid, decide_eq_true_eq]
      exact ⟨by tauto, h2⟩
    unfold Draftset.submit_to
    rw [if_pos hv]
    dsimp only
    split
    · rfl
    · rfl

theorem c2_witness :
    (sampleDraftset.submit_to (Option.some "editor") Option.none
        sampleOracle).2.head? =
      Option.some (Effect.request
        (submitToRequest sampleDraftset (Option.some "editor") Option.none)) :=
  (c2_submit_to_exclusive_or sampleDraftset (Option.some "editor")
      Option.none sampleOracle).2 (by tauto) (by decide)

/-- If the resolved content type is a triple serialization and `graph` is
falsy, `append_data`'s validation fails with an `AssertionError` (at the
graph check, or at an earlier check — never later). -/
theorem validate_fail_of_triple_nograph (ext ct graph enc : Option String)
    (hres : resolvedContentType ext ct = Option.some "text/turtle" ∨
      resolvedContentType ext ct = Option.some "application/trix" ∨
      resolvedContentType ext ct = Option.some "application/n-triples" ∨
      resolvedContentType ext ct = Option.some "application/rdf+xml")
    (hg : truthy graph = false) :
    appendDataValidate ext ct graph enc =
      Except.error PyError.assertionError := by
  simp only [appendDataValidate]
  split
  · rfl
  · split
    · rfl
    · split
      · rfl
      · rw [if_pos ⟨hres, by simp [hg]⟩]

/-- If both arguments pass their membership checks, the resolved content
type is a quad serialization, and the content encoding is admissible, then
validation succeeds with an absent `graph`. -/
theorem validate_ok_of_quad (ext ct enc : Option String)
    (h1 : truthy ext = true ∨ truthy ct = true)
    (hext : ext = Option.some ".trig" ∨ ext = Option.some ".ttl" ∨
      ext = Option.some ".nq" ∨ ext = Option.some ".trix" ∨
      ext = Option.some ".nt" ∨ ext = Option.some ".rdf" ∨
      ext = Option.none)
    (hct : ct = Option.some "application/trig" ∨ ct = Option.some "text/turtle" ∨
      ct = Option.some "application/n-quads" ∨ ct = Option.some "application/trix" ∨
      ct = Option.some "application/n-triples" ∨
      ct = Option.some "application/rdf+xml" ∨ ct = Option.none)
    (hres : resolvedContentType ext ct = Option.some "application/trig" ∨
      resolvedContentType ext ct = Option.some "application/n-quads")
    (henc : enc = Option.some "gzip" ∨ enc = Option.some "x-gzip" ∨
      enc = Option.none) :
    appendDataValidate ext ct Option.none enc =
      Except.ok (resolvedContentType ext ct) := by
  simp only [appendDataValidate]
  rw [if_neg (not_not_intro h1), if_neg (not_not_intro hext),
    if_neg (not_not_intro hct)]
  rw [if_neg]
  · rw [if_neg (not_not_intro henc)]
  · rintro ⟨htrip, -⟩
    rcases hres with h | h <;> rw [h] at htrip <;>
      rcases htrip with h' | h' | h' | h' <;> simp at h'

/-- C3: `append_data` whose resolved content type is a triple serialization
fails with an `AssertionError` — with no file read and no request — when
`graph` is absent, while a quad serialization passes validation without a
`graph`; in particular `.ttl` without a graph fails before the file is read
and `.trig` without a graph passes validation and reaches the file read. -/
theorem c3_append_data_graph_for_triples (d : Draftset) (fp : String)
    (bytes : List Nat) (ext ct graph md enc : Option String) :
    ((resolvedContentType ext ct = Option.some "text/turtle" ∨
        resolvedContentType ext ct = Option.some "application/trix" ∨
        resolvedContentType ext ct = Option.some "application/n-triples" ∨
        resolvedContentType ext ct = Option.some "application/rdf+xml") →
      truthy graph = false →
      d.append_data fp bytes ext ct graph md enc =
        (Except.error PyError.assertionError, [])) ∧
    ((resolvedContentType ext ct = Option.some "application/trig" ∨
        resolvedContentType ext ct = Option.some "application/n-quads") →
      truthy ext = true ∨ truthy ct = true →
      (ext = Option.some ".trig" ∨ ext = Option.some ".ttl" ∨
        ext = Option.some ".nq" ∨ ext = Option.some ".trix" ∨
        ext = Option.some ".nt" ∨ ext = Option.some ".rdf" ∨
        ext = Option.none) →
      (ct = Option.some "application/trig" ∨ ct = Option.some "text/turtle" ∨
        ct = Option.some "application/n-quads" ∨
        ct = Option.some "application/trix" ∨
        ct = Option.some "application/n-triples" ∨
        ct = Option.some "application/rdf+xml" ∨ ct = Option.none) →
      (enc = Option.some "gzip" ∨ enc = Option.some "x-gzip" ∨
        enc = Option.none) →
      appendDataValidate ext ct Option.none enc =
        Except.ok (resolvedContentType ext ct)) ∧
    (d.append_data fp bytes (Option.some ".ttl") Option.none Option.none md
        enc = (Except.error PyError.assertionError, [])) ∧
    ((d.append_data fp bytes (Option.some ".trig") Option.none Option.none md
        Option.none).2.head? = Option.some (Effect.fileRead fp)) := by
  refine ⟨?_, ?_, ?_, ?_⟩
  · intro hres hg
    unfold Draftset.append_data
    rw [validate_fail_of_triple_nograph ext ct graph enc hres hg]
  · intro hres h1 hext hct henc
    exact validate_ok_of_quad ext ct enc h1 hext hct hres henc
  · unfold Draftset.append_data
    rw [validate_fail_of_triple_nograph (Option.some ".ttl") Option.none
      Option.none enc (by simp [resolvedContentType, truthy, extension_map])
      (by rfl)]
  · unfold Draftset.append_data
    rw [validate_ok_of_quad (Option.some ".trig") Option.none Option.none
      (by simp [truthy]) (by simp) (by simp) (by simp [resolvedContentType, truthy, extension_map])
      (by simp)]
    dsimp only
    split <;> rfl

theorem c3_witness :
    (sampleDraftset.append_data "data.ttl" [104] (Option.some ".ttl")
        Option.none Option.none Option.none Option.none =
      (Except.error PyError.assertionError, [])) ∧
    appendDataValidate (Option.some ".trig") Option.none Option.none
        Option.none =
      Except.ok (Option.some "application/trig") :=
  ⟨(c3_append_data_graph_for_triples sampleDraftset "data.ttl" [104]
      (Option.some ".ttl") Option.none Option.none Option.none
      Option.none).2.2.1,
   by
    have h := (c3_append_data_graph_for_triples sampleDraftset "data.ttl"
      [104] (Option.some ".trig") Option.none Option.none Option.none
      Option.none).2.1 (by decide) (by decide) (by decide) (by decide)
      (by decide)
    simpa [resolvedContentType, truthy, extension_map] using h⟩

/-- C4 (counterexample): the inconsistent pair `extension=".ttl"`,
`contentType="application/trig"` is *not* rejected: validation succeeds
(the extension silently overrides, resolving to `"text/turtle"`), the file
is read, and the upload proceeds. -/
theorem c4_counterexample :
    appendDataValidate (Option.some ".ttl") (Option.some "application/trig")
        (Option.some "g") Option.none =
      Except.ok (Option.some "text/turtle") ∧
    (sampleDraftset.append_data "data.ttl" [104] (Option.some ".ttl")
        (Option.some "application/trig") (Option.some "g") Option.none
        Option.none).1 = Except.ok () ∧
    (sampleDraftset.append_data "data.ttl" [104] (Option.some ".ttl")
        (Option.some "application/trig") (Option.some "g") Option.none
        Option.none).2.head? = Option.some (Effect.fileRead "data.ttl") :=
  ⟨rfl, rfl, rfl⟩

/-- C4 (amended): at least one of `extension`/`content_type` must be truthy
(otherwise `append_data` fails with an `AssertionError` before any file read
or request); when both are supplied and each is individually valid, no
consistency check is performed — the extension always overrides, and with a
truthy `graph` and admissible encoding validation succeeds with the
extension-derived content type, consistent pair or not. -/
theorem c4_append_data_extension_overrides (d : Draftset) (fp : String)
    (bytes : List Nat) (ext ct graph md enc : Option String) :
    (truthy ext = false → truthy ct = false →
      d.append_data fp bytes ext ct graph md enc =
        (Except.error PyError.assertionError, [])) ∧
    ((ext = Option.some ".trig" ∨ ext = Option.some ".ttl" ∨
        ext = Option.some ".nq" ∨ ext = Option.some ".trix" ∨
        ext = Option.some ".nt" ∨ ext = Option.some ".rdf") →
      (ct = Option.some "application/trig" ∨ ct = Option.some "text/turtle" ∨
        ct = Option.some "application/n-quads" ∨
        ct = Option.some "application/trix" ∨
        ct = Option.some "application/n-triples" ∨
        ct = Option.some "application/rdf+xml" ∨ ct = Option.none) →
      truthy graph = true →
      (enc = Option.some "gzip" ∨ enc = Option.some "x-gzip" ∨
        enc = Option.none) →
      appendDataValidate ext ct graph enc =
        Except.ok (extension_map (ext.getD ""))) := by
  constructor
  · intro he hc
    unfold Draftset.append_data
    have hv : appendDataValidate ext ct graph enc =
        Except.error PyError.assertionError := by
      simp only [appendDataValidate]
      rw [if_pos]
      rintro (h | h)
      · rw [he] at h
        exact Bool.false_ne_true h
      · rw [hc] at h
        exact Bool.false_ne_true h
    rw [hv]
  · intro hext hct hg henc
    have htr : truthy ext = true := by
      rcases hext with h | h | h | h | h | h <;> rw [h] <;> rfl
    have hres : resolvedContentType ext ct = extension_map (ext.getD "") := by
      simp [resolvedContentType, htr]
    simp only [appendDataValidate]
    rw [if_neg (not_not_intro (Or.inl htr)),
      if_neg (not_not_intro (by tauto)), if_neg (not_not_intro hct)]
    rw [if_neg, if_neg (not_not_intro henc), hres]
    rintro ⟨-, hng⟩
    exact hng hg

theorem c4_witness :
    appendDataValidate (Option.some ".ttl") (Option.some "application/trig")
        (Option.some "g") Option.none =
      Except.ok (extension_map ".ttl") ∧
    sampleDraftset.append_data "f" [104] Option.none Option.none Option.none
        Option.none Option.none =
      (Except.error PyError.assertionError, []) :=
  ⟨(c4_append_data_extension_overrides sampleDraftset "f" [104]
      (Option.some ".ttl") (Option.some "application/trig") (Option.some "g")
      Option.none Option.none).2 (by tauto) (by tauto) (by decide) (by tauto),
   (c4_append_data_extension_overrides sampleDraftset "f" [104] Option.none
      Option.none Option.none Option.none Option.none).1 rfl rfl⟩

/-- The oracle used by the `create_draftset` witness: the POST answers 303
with a `Location` redirect, every other request answers 200 with a record. -/
def c1Oracle : Oracle := fun r =>
  if r.method = "POST" then
    { statusCode := 303,
      location := Option.some
        "https://cogs-staging-drafter.publishmydata.com/v1/draftset/abc-123" }
  else
    { statusCode := 200, jsonRecord := Option.some sampleRecord }

/-- C1: `create_draftset` disables redirect following; on a 303 response it
extracts the trailing path segment of the `Location` header, issues exactly
one follow-up request — the `get_draftset` GET for that id, to the
hardcoded draftset URL, never to the `Location` value itself — and returns
`get_draftset`'s result; on any other status it fails with a
`RequestException` carrying the raw response body. -/
theorem c1_create_draftset_redirect (s : Session) (dn desc : Option String)
    (uwl : Bool) (oracle : Oracle) :
    ((oracle (createDraftsetRequest s dn desc uwl)).statusCode = 303 →
      ∀ loc : String,
        (oracle (createDraftsetRequest s dn desc uwl)).location =
          Option.some loc →
        create_draftset s dn desc uwl oracle =
          ((get_draftset s (lastPathSegment loc) false oracle).1,
           [Effect.request (createDraftsetRequest s dn desc uwl),
            Effect.request
              (getDraftsetRequest s (lastPathSegment loc) false)])) ∧
    ((oracle (createDraftsetRequest s dn desc uwl)).statusCode ≠ 303 →
      create_draftset s dn desc uwl oracle =
        (Except.error (PyError.requestException
            (oracle (createDraftsetRequest s dn desc uwl)).body),
         [Effect.request (createDraftsetRequest s dn desc uwl)])) ∧
    (createDraftsetRequest s dn desc uwl).allowRedirects = false ∧
    (∀ i : String, (getDraftsetRequest s i false).method = "GET" ∧
      (getDraftsetRequest s i false).url = draftsetUrl i) := by
  refine ⟨?_, ?_, rfl, fun i => ⟨rfl, rfl⟩⟩
  · intro h303 loc hloc
    unfold create_draftset
    dsimp only
    rw [if_pos h303, hloc]
    simp [get_draftset_trace]
  · intro h
    unfold create_draftset
    dsimp only
    rw [if_neg h]

theorem c1_witness :
    (c1Oracle (createDraftsetRequest sampleSession Option.none Option.none
        false)).statusCode = 303 ∧
    lastPathSegment
        "https://cogs-staging-drafter.publishmydata.com/v1/draftset/abc-123" =
      "abc-123" ∧
    create_draftset sampleSession Option.none Option.none false c1Oracle =
      ((get_draftset sampleSession "abc-123" false c1Oracle).1,
       [Effect.request (createDraftsetRequest sampleSession Option.none
          Option.none false),
        Effect.request (getDraftsetRequest sampleSession "abc-123" false)]) := by
  refine ⟨rfl, by decide, ?_⟩
  have h := (c1_create_draftset_redirect sampleSession Option.none Option.none
    false c1Oracle).1 rfl
    "https://cogs-staging-drafter.publishmydata.com/v1/draftset/abc-123" rfl
  have hseg : lastPathSegment
      "https://cogs-staging-drafter.publishmydata.com/v1/draftset/abc-123" =
      "abc-123" := by decide
  rw [hseg] at h
  exact h

/-- C7 (divergence): `append_data` opens the file in *text* mode, not as
raw bytes.  A gzip-compressed file (here starting with the gzip magic bytes
`0x1f 0x8b`) is not valid text, so the upload fails with a
`UnicodeDecodeError` after the file read and no request is ever sent — even
though `content_encoding="gzip"` is accepted; and a plain ASCII file
containing a CRLF has its bytes rewritten by universal-newline translation,
so the PUT body differs from the file's bytes. -/
theorem c7_append_data_text_mode_read (d : Draftset) (fp : String)
    (md : Option String) :
    (d.append_data fp [31, 139] (Option.some ".trig") Option.none Option.none
        md (Option.some "gzip") =
      (Except.error PyError.unicodeDecodeError, [Effect.fileRead fp])) ∧
    pythonTextRead [31, 139] = Except.error PyError.unicodeDecodeError ∧
    pythonTextRead [97, 13, 10, 98] = Except.ok [97, 10, 98] ∧
    ((d.append_data fp [97, 13, 10, 98] (Option.some ".trig") Option.none
        Option.none md Option.none).2 =
      [Effect.fileRead fp,
       Effect.request (appendDataRequest d (Option.some "application/trig")
         Option.none Option.none md [97, 10, 98])]) ∧
    (appendDataRequest d (Option.some "application/trig") Option.none
        Option.none md [97, 10, 98]).rawBody ≠
      Option.some [97, 13, 10, 98] := by
  refine ⟨rfl, rfl, rfl, rfl, ?_⟩
  intro h
  simp [appendDataRequest] at h

/-- The wire-level content of a `Draftset` handle: every field except the
`_requester` back-reference. -/
def Draftset.record (d : Draftset) : DraftsetRecord :=
  { id := d.id, type := d.type, created_at := d.created_at,
    updated_at := d.updated_at, changes := d.changes,
    display_name := d.display_name, current_owner := d.current_owner,
    submitted_by := d.submitted_by, claim_role := d.claim_role,
    claim_user := d.claim_user, description := d.description }

/-- Observable outcome of a draftset-returning operation: the result up to
the session back-reference, plus the full effect trace. -/
def obsDraftset (x : Except PyError Draftset × List Effect) :
    Except PyError DraftsetRecord × List Effect :=
  (Except.map Draftset.record x.1, x.2)

/-- Observable outcome of `get_draftsets`. -/
def obsDraftsets (x : Except PyError (List Draftset) × List Effect) :
    Except PyError (List DraftsetRecord) × List Effect :=
  (Except.map (List.map Draftset.record) x.1, x.2)

/-- The record content of a constructed `Draftset` does not depend on which
session it is bound to. -/
theorem mkDraftset_record (s1 s2 : Session) (r : DraftsetRecord) :
    Except.map Draftset.record (mkDraftset s1 r) =
      Except.map Draftset.record (mkDraftset s2 r) := by
  unfold mkDraftset
  split <;> rfl

/-- `mkDraftset_record`, lifted over the decoding of a whole record list. -/
theorem mapM_mkDraftset_record (s1 s2 : Session) (rs : List DraftsetRecord) :
    Except.map (List.map Draftset.record) (rs.mapM (mkDraftset s1)) =
      Except.map (List.map Draftset.record) (rs.mapM (mkDraftset s2)) := by
  induction rs with
  | nil => rfl
  | cons r rs ih =>
    simp only [List.mapM_cons]
    have hr := mkDraftset_record s1 s2 r
    cases h1 : mkDraftset s1 r with
    | error e =>
      cases h2 : mkDraftset s2 r with
      | error e' =>
        rw [h1, h2] at hr
        cases hr
        rfl
      | ok d2 => rw [h1, h2] at hr; cases hr
    | ok d1 =>
      cases h2 : mkDraftset s2 r with
      | error e' => rw [h1, h2] at hr; cases hr
      | ok d2 =>
        rw [h1, h2] at hr
        have hd : Draftset.record d1 = Draftset.record d2 := by
          simpa [Except.map] using hr
        cases h3 : rs.mapM (mkDraftset s1) with
        | error e =>
          cases h4 : rs.mapM (mkDraftset s2) with
          | error e' =>
            rw [h3, h4] at ih
            cases ih
            rfl
          | ok l2 => rw [h3, h4] at ih; cases ih
        | ok l1 =>
          cases h4 : rs.mapM (mkDraftset s2) with
          | error e' => rw [h3, h4] at ih; cases ih
          | ok l2 =>
            rw [h3, h4] at ih
            have hl : List.map Draftset.record l1 = List.map Draftset.record l2 := by
              simpa [Except.map] using ih
            show Except.ok (List.map Draftset.record (d1 :: l1)) =
              Except.ok (List.map Draftset.record (d2 :: l2))
            rw [List.map_cons, List.map_cons, hd, hl]

/-- The `get_draftsets` request depends on the session only through its
access token. -/
theorem getDraftsetsRequest_token (s1 s2 : Session)
    (h : s1.access_token = s2.access_token) (inc : String) (uwl : Bool) :
    getDraftsetsRequest s1 inc uwl = getDraftsetsRequest s2 inc uwl := by
  unfold getDraftsetsRequest authHeaders
  rw [h]

/-- The `get_draftset` request depends on the session only through its
access token. -/
theorem getDraftsetRequest_token (s1 s2 : Session)
    (h : s1.access_token = s2.access_token) (id : String) (uwl : Bool) :
    getDraftsetRequest s1 id uwl = getDraftsetRequest s2 id uwl := by
  unfold getDraftsetRequest authHeaders
  rw [h]

/-- The `create_draftset` request depends on the session only through its
access token. -/
theorem createDraftsetRequest_token (s1 s2 : Session)
    (h : s1.access_token = s2.access_token) (dn desc : Option String)
    (uwl : Bool) :
    createDraftsetRequest s1 dn desc uwl =
      createDraftsetRequest s2 dn desc uwl := by
  unfold createDraftsetRequest authHeaders
  rw [h]

/-- `get_draftsets` observed up to the back-reference is the same for two
sessions with the same token. -/
theorem obs_get_draftsets (s1 s2 : Session)
    (h : s1.access_token = s2.access_token) (inc : String) (uwl : Bool)
    (oracle : Oracle) :
    obsDraftsets (get_draftsets s1 inc uwl oracle) =
      obsDraftsets (get_draftsets s2 inc uwl oracle) := by
  unfold get_draftsets
  dsimp only
  rw [getDraftsetsRequest_token s1 s2 h]
  split
  · split
    · split
      · rfl
      · unfold obsDraftsets
        dsimp only
        simp only [Prod.mk.injEq]
        exact ⟨mapM_mkDraftset_record s1 s2 _, trivial⟩
    · rfl
  · rfl

/-- `get_draftset` observed up to the back-reference is the same for two
sessions with the same token. -/
theorem obs_get_draftset (s1 s2 : Session)
    (h : s1.access_token = s2.access_token) (id : String) (uwl : Bool)
    (oracle : Oracle) :
    obsDraftset (get_draftset s1 id uwl oracle) =
      obsDraftset (get_draftset s2 id uwl oracle) := by
  unfold get_draftset
  dsimp only
  rw [getDraftsetRequest_token s1 s2 h]
  split
  · split
    · rfl
    · unfold obsDraftset
      dsimp only
      simp only [Prod.mk.injEq]
      exact ⟨mkDraftset_record s1 s2 _, trivial⟩
  · rfl

/-- A refetch-step helper: prefixing the same request to two observably
equal `get_draftset` outcomes keeps them observably equal. -/
theorem obs_refetch (s1 s2 : Session)
    (h : s1.access_token = s2.access_token) (id : String)
    (oracle : Oracle) (req : HttpRequest) :
    obsDraftset ((get_draftset s1 id false oracle).1,
        Effect.request req :: (get_draftset s1 id false oracle).2) =
      obsDraftset ((get_draftset s2 id false oracle).1,
        Effect.request req :: (get_draftset s2 id false oracle).2) := by
  have hg := obs_get_draftset s1 s2 h id false oracle
  unfold obsDraftset at hg ⊢
  simp only [Prod.mk.injEq] at hg ⊢
  exact ⟨hg.1, by rw [hg.2]⟩

/-- The `submit_to` request depends on the bound session only through its
access token. -/
theorem submitToRequest_token (s1 s2 : Session)
    (h : s1.access_token = s2.access_token) (d : Draftset)
    (role user : Option String) :
    submitToRequest { d with requester := s1 } role user =
      submitToRequest { d with requester := s2 } role user := by
  unfold submitToRequest authHeaders
  dsimp only
  rw [h]

/-- C9: for two sessions that differ only in `base_url` (same credentials
and token), every operation issues the identical requests in the identical
order — all URLs are hardcoded constants and `base_url` is never read — and
produces the same observable outcome (for draftset-returning operations, the
same result up to the `_requester` back-reference, which is the only place
the unused `base_url` survives). -/
theorem c9_base_url_independent (s1 s2 : Session)
    (hid : s1.client_id = s2.client_id)
    (hsec : s1.client_secret = s2.client_secret)
    (htok : s1.access_token = s2.access_token)
    (d : Draftset) (inc : String) (uwl : Bool) (id : String)
    (dn desc role user : Option String) (fp : String) (bytes : List Nat)
    (ext ct graph md enc : Option String) (oracle : Oracle) :
    obsDraftsets (get_draftsets s1 inc uwl oracle) =
      obsDraftsets (get_draftsets s2 inc uwl oracle) ∧
    obsDraftset (get_draftset s1 id uwl oracle) =
      obsDraftset (get_draftset s2 id uwl oracle) ∧
    obsDraftset (create_draftset s1 dn desc uwl oracle) =
      obsDraftset (create_draftset s2 dn desc uwl oracle) ∧
    Draftset.delete { d with requester := s1 } md oracle =
      Draftset.delete { d with requester := s2 } md oracle ∧
    obsDraftset (Draftset.claim { d with requester := s1 } oracle) =
      obsDraftset (Draftset.claim { d with requester := s2 } oracle) ∧
    obsDraftset
        (Draftset.submit_to { d with requester := s1 } role user oracle) =
      obsDraftset
        (Draftset.submit_to { d with requester := s2 } role user oracle) ∧
    Draftset.publish { d with requester := s1 } md =
      Draftset.publish { d with requester := s2 } md ∧
    Draftset.append_data { d with requester := s1 } fp bytes ext ct graph md
        enc =
      Draftset.append_data { d with requester := s2 } fp bytes ext ct graph
        md enc := by
  refine ⟨obs_get_draftsets s1 s2 htok inc uwl oracle,
    obs_get_draftset s1 s2 htok id uwl oracle, ?_, ?_, ?_, ?_, ?_, ?_⟩
  · unfold create_draftset
    dsimp only
    rw [createDraftsetRequest_token s1 s2 htok dn desc uwl]
    split
    · split
      · rfl
      · exact obs_refetch s1 s2 htok _ oracle _
    · rfl
  · unfold Draftset.delete
    dsimp only
    rw [htok]
  · unfold Draftset.claim
    dsimp only
    rw [htok]
    split
    · exact obs_refetch s1 s2 htok d.id oracle _
    · rfl
  · unfold Draftset.submit_to
    split
    · dsimp only
      rw [submitToRequest_token s1 s2 htok d role user]
      split
      · exact obs_refetch s1 s2 htok d.id oracle _
      · rfl
    · rfl
  · unfold Draftset.publish
    dsimp only
    rw [htok]
  · unfold Draftset.append_data appendDataRequest
    dsimp only
    rw [htok]

/-- A second sample session, identical to `sampleSession` except for
`base_url`. -/
def sampleSession2 : Session :=
  { sampleSession with base_url := "https://staging.example.org/v1/" }

theorem c9_witness :
    sampleSession.base_url ≠ sampleSession2.base_url ∧
    obsDraftsets (get_draftsets sampleSession "all" false sampleOracle) =
      obsDraftsets (get_draftsets sampleSession2 "all" false sampleOracle) ∧
    Draftset.delete { sampleDraftset with requester := sampleSession }
        Option.none sampleOracle =
      Draftset.delete { sampleDraftset with requester := sampleSession2 }
        Option.none sampleOracle :=
  ⟨by decide,
   (c9_base_url_independent sampleSession sampleSession2 rfl rfl rfl
      sampleDraftset "all" false "abc-123" Option.none Option.none
      Option.none Option.none "f" [104] Option.none Option.none Option.none
      Option.none Option.none sampleOracle).1,
   (c9_base_url_independent sampleSession sampleSession2 rfl rfl rfl
      sampleDraftset "all" false "abc-123" Option.none Option.none
      Option.none Option.none "f" [104] Option.none Option.none Option.none
      Option.none Option.none sampleOracle).2.2.2.1⟩
